import Mathlib

/-!
Verification of the task-management core (`task_manager.py`): a shallow
embedding of the `TaskManager` repository operations (`get_next_id`,
`find_task`, `add_task`, `update_task`, `get_all_tasks`) and of the
markdown ingestion loop (`cmd_create`), together with theorems settling
the specification claims about them.
-/

namespace TaskMan

/-- Whitespace in the sense of Python's `str.strip`: space, tab, newline,
carriage return, vertical tab, form feed. -/
def isPySpace (c : Char) : Bool :=
  c = ' ' || c = '\t' || c = '\n' || c = '\r' || c = '\x0b' || c = '\x0c'

/-- Embedding of Python's `str.strip()`: drop whitespace from both ends. -/
def pyStrip (s : String) : String :=
  String.mk (((s.data.dropWhile isPySpace).reverse.dropWhile isPySpace).reverse)

/-- Embedding of Python's `str.startswith(pat)`. -/
def strStartsWith (s pat : String) : Bool :=
  pat.data.isPrefixOf s.data

/-- Embedding of Python's slice `s[n:]` (drop the first `n` characters). -/
def strDrop (s : String) (n : Nat) : String :=
  String.mk (s.data.drop n)

/-- Embedding of Python's `str.lstrip('#')`: drop leading `#` characters. -/
def stripHashes (s : String) : String :=
  String.mk (s.data.dropWhile (fun c => c = '#'))

/-- Embedding of Python's `str.upper()` (ASCII, as the program's inputs). -/
def strUpper (s : String) : String :=
  String.mk (s.data.map Char.toUpper)

/-- Embedding of Python's `str.lower()` (ASCII, as the program's inputs). -/
def strLower (s : String) : String :=
  String.mk (s.data.map Char.toLower)

/-- Helper for substring containment: does `pat` occur in the list? -/
def hasSubAux (pat : List Char) : List Char → Bool
  | [] => pat.isPrefixOf []
  | c :: rest => pat.isPrefixOf (c :: rest) || hasSubAux pat rest

/-- Substring containment, embedding Python's `pat in s` test. -/
def strContains (s pat : String) : Bool :=
  hasSubAux pat.data s.data

/-- Embedding of Python's `content.split('\n')`: split on each newline,
keeping empty pieces (helper carrying the reversed current piece). -/
def splitLinesAux : List Char → List Char → List String
  | [], acc => [String.mk acc.reverse]
  | c :: rest, acc =>
    if c = '\n' then String.mk acc.reverse :: splitLinesAux rest []
    else splitLinesAux rest (c :: acc)

/-- Embedding of Python's `content.split('\n')`. -/
def splitLines (s : String) : List String :=
  splitLinesAux s.data []

/-- A task record with the thirteen canonical fields, in schema order
(the normalized shape produced by `add_task` / `update_task`). -/
structure Task where
  id : Nat
  title : String
  status : String
  priority : String
  created : String
  updated : String
  completed : Option String
  source_file : Option String
  source_line : Option Nat
  notes : Option String
  tags : List String
  blocked_by : Option String
  depends_on : List Nat
deriving DecidableEq, Repr

/-- The three container files: `active.json`, `backlog.json`, `completed.json`. -/
inductive CName where
  | active
  | backlog
  | completed
deriving DecidableEq, Repr

/-- The persistent state: the task lists of the three container files. -/
structure Store where
  active : List Task
  backlog : List Task
  completed : List Task
deriving DecidableEq, Repr

/-- The store with three empty containers (freshly initialized files). -/
def emptyStore : Store :=
  { active := [], backlog := [], completed := [] }

/-- Tasks of one container of the store. -/
def tasksOf (s : Store) : CName → List Task
  | CName.active => s.active
  | CName.backlog => s.backlog
  | CName.completed => s.completed

/-- Replace the task list of one container. -/
def setTasks (s : Store) (c : CName) (ts : List Task) : Store :=
  match c with
  | CName.active => { s with active := ts }
  | CName.backlog => { s with backlog := ts }
  | CName.completed => { s with completed := ts }

/-- All tasks in file order active, backlog, completed (the scan order of
the Python loops over `[self.active_file, self.backlog_file, self.completed_file]`). -/
def allTasks (s : Store) : List Task :=
  s.active ++ s.backlog ++ s.completed

/-- Embedding of `TaskManager.get_next_id`: fold the maximum id over all
three containers starting at 0, return it plus one. -/
def get_next_id (s : Store) : Nat :=
  ((allTasks s).foldl (fun max_id t => if t.id > max_id then t.id else max_id) 0) + 1

/-- Embedding of `TaskManager.find_task`: first task with the given id,
scanning active, then backlog, then completed. -/
def find_task (s : Store) (task_id : Nat) : Option (Task × CName) :=
  match s.active.find? (fun t => t.id == task_id) with
  | some t => some (t, CName.active)
  | none =>
    match s.backlog.find? (fun t => t.id == task_id) with
    | some t => some (t, CName.backlog)
    | none =>
      match s.completed.find? (fun t => t.id == task_id) with
      | some t => some (t, CName.completed)
      | none => none

/-- An input record for `add_task`: a Python dict in which every field may
be absent.  An optional field that is present with value `None` behaves
exactly like an absent one under the `task.get(...)` normalization, so
both are `none` here. -/
structure TaskInput where
  id : Option Nat := none
  title : Option String := none
  status : Option String := none
  priority : Option String := none
  created : Option String := none
  updated : Option String := none
  completed : Option String := none
  source_file : Option String := none
  source_line : Option Nat := none
  notes : Option String := none
  tags : Option (List String) := none
  blocked_by : Option String := none
  depends_on : Option (List Nat) := none
deriving DecidableEq, Repr

/-- Embedding of `TaskManager.add_task`: default the id via `get_next_id`
and the created/updated stamps via `now` when absent, fail when a required
field (title, status, priority) is missing, normalize to the canonical
thirteen-field record, and append it to the target container. -/
def add_task (s : Store) (task : TaskInput) (target : CName) (now : String) :
    Except String (Task × Store) :=
  let i := task.id.getD (get_next_id s)
  let created := task.created.getD now
  let updated := task.updated.getD now
  match task.title, task.status, task.priority with
  | some title, some status, some priority =>
    let normalized_task : Task :=
      { id := i
        title := title
        status := status
        priority := priority
        created := created
        updated := updated
        completed := task.completed
        source_file := task.source_file
        source_line := task.source_line
        notes := task.notes
        tags := task.tags.getD []
        blocked_by := task.blocked_by
        depends_on := task.depends_on.getD [] }
    Except.ok (normalized_task, setTasks s target (tasksOf s target ++ [normalized_task]))
  | _, _, _ => Except.error "Task missing required field"

/-- An updates dict for `update_task`, covering the fields the program
ever passes (`cmd_update` restricts to these plus `title`, `cmd_complete`
passes `status`/`completed`, ingestion passes `notes`).  A `some` entry is
a key present in the dict; for the nullable fields the inner `Option` is
the value stored under the key. -/
structure Updates where
  title : Option String := none
  status : Option String := none
  priority : Option String := none
  notes : Option (Option String) := none
  completed : Option (Option String) := none
  tags : Option (List String) := none
  blocked_by : Option (Option String) := none
  depends_on : Option (List Nat) := none
deriving DecidableEq, Repr

/-- Embedding of `task.update(updates)` followed by
`task["updated"] = self._now()` inside `update_task`. -/
def applyUpdates (t : Task) (u : Updates) (now : String) : Task :=
  { t with
    title := u.title.getD t.title
    status := u.status.getD t.status
    priority := u.priority.getD t.priority
    notes := u.notes.getD t.notes
    completed := u.completed.getD t.completed
    tags := u.tags.getD t.tags
    blocked_by := u.blocked_by.getD t.blocked_by
    depends_on := u.depends_on.getD t.depends_on
    updated := now }

/-- The status-to-container routing of `update_task`: completed and
backlog to their containers, every other status string to active. -/
def routeStatus (status : String) : CName :=
  if status = "completed" then CName.completed
  else if status = "backlog" then CName.backlog
  else CName.active

/-- Embedding of `TaskManager._update_task_in_file`: replace the first
task carrying the id (the loop breaks after the first hit). -/
def updateInList (ts : List Task) (task_id : Nat) (updated_task : Task) : List Task :=
  match ts with
  | [] => []
  | t :: rest =>
    if t.id == task_id then updated_task :: rest
    else t :: updateInList rest task_id updated_task

/-- Embedding of `TaskManager._move_task`: drop every task carrying the id
from the source container, append the record to the target container. -/
def moveTask (s : Store) (task_id : Nat) (src tgt : CName) (task : Task) : Store :=
  let s1 := setTasks s src ((tasksOf s src).filter (fun t => t.id != task_id))
  setTasks s1 tgt (tasksOf s1 tgt ++ [task])

/-- Embedding of `TaskManager.update_task`: find the task, merge the
updates, restamp `updated`, stamp `completed` when the resulting status is
completed and no completed stamp is set, route by the resulting status,
and either rewrite in place or move between containers. -/
def update_task (s : Store) (task_id : Nat) (updates : Updates) (now : String) :
    Except String (Task × CName × CName × Store) :=
  match find_task s task_id with
  | none => Except.error "Task not found"
  | some (task, source_file) =>
    let t1 := applyUpdates task updates now
    let t2 :=
      if t1.status = "completed" ∧ t1.completed = none then
        { t1 with completed := some now }
      else t1
    let target_file := routeStatus t1.status
    if source_file = target_file then
      Except.ok (t2, source_file, target_file,
        setTasks s source_file (updateInList (tasksOf s source_file) task_id t2))
    else
      Except.ok (t2, source_file, target_file, moveTask s task_id source_file target_file t2)

/-- Embedding of `TaskManager.get_all_tasks`: no filter concatenates the
three containers; a recognized filter selects its container; any other
filter string selects no file at all. -/
def get_all_tasks (s : Store) (file_filter : Option String) : List Task :=
  match file_filter with
  | none => s.active ++ s.backlog ++ s.completed
  | some f =>
    if f = "active" then s.active
    else if f = "backlog" then s.backlog
    else if f = "completed" then s.completed
    else []

/-- The fixed tag vocabulary scanned against the lower-cased title in
`cmd_create`. -/
def tag_keywords : List String :=
  ["backend", "frontend", "auth", "api", "ui", "database",
   "testing", "docs", "documentation", "deployment", "security"]

/-- The heading text of a stripped heading line: leading `#` characters
stripped, trimmed, upper-cased (`stripped.lstrip('#').strip().upper()`). -/
def headingText (stripped : String) : String :=
  strUpper (pyStrip (stripHashes stripped))

/-- The priority update a heading performs in `cmd_create`: the first
matching containment check in the fixed order CRITICAL, HIGH, MEDIUM,
LOW; a heading matching none leaves the current priority unchanged. -/
def headingPriority (heading_text current_priority : String) : String :=
  if strContains heading_text "CRITICAL" then "critical"
  else if strContains heading_text "HIGH" then "high"
  else if strContains heading_text "MEDIUM" then "medium"
  else if strContains heading_text "LOW" then "low"
  else current_priority

/-- The title of a stripped task line: everything after the 5-character
checkbox marker, trimmed. -/
def taskTitle (stripped : String) : String :=
  pyStrip (strDrop stripped 5)

/-- Predicate of lines 604 and 651: the stripped line opens with a
checkbox marker. -/
def isTaskLine (stripped : String) : Bool :=
  strStartsWith stripped "- [ ]" || strStartsWith stripped "- [x]"

/-- The blocked-marker test of `cmd_create`: the title contains the 🚫
token or the word BLOCKED after upper-casing. -/
def hasBlockedMarker (title : String) : Bool :=
  strContains title "🚫" || strContains (strUpper title) "BLOCKED"

/-- The task dict built for one task line of `cmd_create` (lines 624-643):
title, checkbox-resolved status with the blocked override, the current
priority, provenance, tag extraction, and — for a checked box — the
ingestion-time completed stamp.  The id and the created/updated stamps are
left absent, to be defaulted by `add_task`. -/
def lineTaskInput (current_priority source_file : String) (line_number : Nat)
    (now : String) (stripped : String) : TaskInput :=
  let is_completed := strStartsWith stripped "- [x]"
  let title := taskTitle stripped
  let tags := tag_keywords.filter (fun keyword => strContains (strLower title) keyword)
  let status0 := if is_completed then "completed" else "pending"
  let status := if hasBlockedMarker title then "blocked" else status0
  { title := some title
    status := some status
    priority := some current_priority
    completed := if is_completed then some now else none
    source_file := some source_file
    source_line := some line_number
    notes := none
    tags := some tags
    blocked_by := none
    depends_on := some [] }

/-- The mutable state of the `cmd_create` parsing loop. -/
structure IngestState where
  store : Store
  tasks_created : List Task
  tasks_completed : List Task
  current_priority : String
  current_heading : Option String
deriving DecidableEq, Repr

/-- The loop state at entry of `cmd_create`: empty bookkeeping lists and
`current_priority = "medium"` over the given store. -/
def initIngestState (s : Store) : IngestState :=
  { store := s
    tasks_created := []
    tasks_completed := []
    current_priority := "medium"
    current_heading := none }

/-- One iteration of the `cmd_create` loop on a single line: skip blanks,
headings update the current priority, checkbox lines create a task in the
active or completed container, and the indented-notes branch compares the
*stripped* line against a two-space-indented prefix before appending the
note text to the last created task and persisting it via `update_task`.
The `Except.error` fallbacks are unreachable for the inputs the loop
builds. -/
def ingestStep (source_file now : String) (st : IngestState) (line_number : Nat)
    (line : String) : IngestState :=
  let stripped := pyStrip line
  if stripped = "" then st
  else if strStartsWith stripped "#" then
    { st with
      current_priority := headingPriority (headingText stripped) st.current_priority
      current_heading := some stripped }
  else if isTaskLine stripped then
    let is_completed := strStartsWith stripped "- [x]"
    let title := taskTitle stripped
    if title = "" then st
    else
      let task := lineTaskInput st.current_priority source_file line_number now stripped
      if is_completed then
        match add_task st.store task CName.completed now with
        | Except.ok (t, s2) =>
          { st with store := s2, tasks_completed := st.tasks_completed ++ [t] }
        | Except.error _ => st
      else
        match add_task st.store task CName.active now with
        | Except.ok (t, s2) =>
          { st with store := s2, tasks_created := st.tasks_created ++ [t] }
        | Except.error _ => st
  else if strStartsWith stripped "  - " && !st.tasks_created.isEmpty then
    match st.tasks_created.getLast? with
    | none => st
    | some last_task =>
      let note_text := pyStrip (strDrop stripped 4)
      let new_notes :=
        match last_task.notes with
        | some old => old ++ " " ++ note_text
        | none => note_text
      let created2 := st.tasks_created.dropLast ++ [{ last_task with notes := some new_notes }]
      match update_task st.store last_task.id { notes := some (some new_notes) } now with
      | Except.ok (_, _, _, s2) => { st with store := s2, tasks_created := created2 }
      | Except.error _ => { st with tasks_created := created2 }
  else st

/-- The `cmd_create` loop over the remaining lines, threading the 1-based
line counter. -/
def ingestLines (source_file now : String) : IngestState → Nat → List String → IngestState
  | st, _, [] => st
  | st, line_number, line :: rest =>
    ingestLines source_file now
      (ingestStep source_file now st (line_number + 1) line) (line_number + 1) rest

/-- Embedding of the parsing phase of `cmd_create`: split the document on
newlines and run the loop from the initial state. -/
def ingestDoc (content source_file now : String) (s : Store) : IngestState :=
  ingestLines source_file now (initIngestState s) 0 (splitLines content)

/-! Section: Generic lemmas about the repository operations -/

/-- The id-maximum loop of `get_next_id` computes the `max`-fold of the
ids, seeded at the accumulator. -/
theorem foldl_nextId_eq_max (l : List Task) (a : Nat) :
    l.foldl (fun max_id t => if t.id > max_id then t.id else max_id) a =
      max a ((l.map Task.id).foldr max 0) := by
  induction l generalizing a with
  | nil => simp
  | cons t l ih =>
    have hif : (if t.id > a then t.id else a) = max a t.id := by
      split <;> omega
    rw [List.foldl_cons, hif, ih, List.map_cons, List.foldr_cons, Nat.max_assoc]

/-- Every element of a list of naturals is bounded by its `max`-fold. -/
theorem le_foldr_max (l : List Nat) : ∀ x ∈ l, x ≤ l.foldr max 0 := by
  induction l with
  | nil => simp
  | cons a l ih =>
    intro x hx
    rcases List.mem_cons.mp hx with h | h
    · subst h; exact Nat.le_max_left _ _
    · exact Nat.le_trans (ih x h) (Nat.le_max_right _ _)

/-- The `max`-fold of a nonempty list of naturals is attained. -/
theorem foldr_max_mem (l : List Nat) (h : l ≠ []) : l.foldr max 0 ∈ l := by
  induction l with
  | nil => exact absurd rfl h
  | cons a l ih =>
    cases l with
    | nil => simp
    | cons b m =>
      rcases Nat.le_total a ((b :: m).foldr max 0) with h1 | h1
      · rw [List.foldr_cons, Nat.max_eq_right h1]
        exact List.mem_cons_of_mem _ (ih (by simp))
      · rw [List.foldr_cons, Nat.max_eq_left h1]
        exact List.mem_cons_self _ _

/-! Section: Claim C4 -/

/-- Claim C4: `get_next_id` returns 1 plus the maximum task id found
across the active, backlog and completed containers (the `max`-fold of
the ids, which bounds every id and is attained when any task exists), and
returns 1 when all three containers hold no tasks. -/
theorem get_next_id_spec (s : Store) :
    get_next_id s = 1 + ((allTasks s).map Task.id).foldr max 0 ∧
    (∀ t ∈ allTasks s, t.id ≤ ((allTasks s).map Task.id).foldr max 0) ∧
    (allTasks s ≠ [] → ((allTasks s).map Task.id).foldr max 0 ∈ (allTasks s).map Task.id) ∧
    (allTasks s = [] → get_next_id s = 1) := by
  refine ⟨?_, ?_, ?_, ?_⟩
  · rw [get_next_id, foldl_nextId_eq_max, Nat.zero_max, Nat.add_comm]
  · intro t ht
    exact le_foldr_max _ _ (List.mem_map_of_mem Task.id ht)
  · intro h
    exact foldr_max_mem _ (by simpa using h)
  · intro h
    rw [get_next_id, h]
    rfl

/-- Shorthand for a concrete task record with the given id, title, status
and priority and defaulted remaining fields, used by concrete instances. -/
def mkT (i : Nat) (title status priority : String) : Task :=
  { id := i, title := title, status := status, priority := priority,
    created := "T0", updated := "T0", completed := none, source_file := none,
    source_line := none, notes := none, tags := [], blocked_by := none,
    depends_on := [] }

/-- A concrete store populated in all three containers. -/
def storeW : Store :=
  { active := [mkT 3 "a" "pending" "low"]
    backlog := [mkT 7 "b" "backlog" "medium"]
    completed := [mkT 2 "c" "completed" "high"] }

/-- Witness for C4: the implications of `get_next_id_spec` discharged at
an empty and at a populated store. -/
theorem get_next_id_spec_witness :
    get_next_id emptyStore = 1 ∧
    ((allTasks storeW).map Task.id).foldr max 0 ∈ (allTasks storeW).map Task.id :=
  ⟨(get_next_id_spec emptyStore).2.2.2 rfl,
   (get_next_id_spec storeW).2.2.1 (by decide)⟩

/-! Section: Claim C10 -/

/-- Claim C10: `get_all_tasks` with a filter string that is none of
"active", "backlog", "completed" returns the empty list (no error, no
fallback to listing all containers). -/
theorem get_all_tasks_unknown_filter (s : Store) (f : String)
    (h1 : f ≠ "active") (h2 : f ≠ "backlog") (h3 : f ≠ "completed") :
    get_all_tasks s (some f) = [] := by
  simp [get_all_tasks, h1, h2, h3]

/-- Witness for C10: an unknown filter over a store that is nonempty in
every container yields the empty list. -/
theorem get_all_tasks_unknown_filter_witness :
    get_all_tasks storeW (some "everything") = [] :=
  get_all_tasks_unknown_filter storeW "everything"
    (by decide) (by decide) (by decide)

/-! Section: Claim C1 -/

/-- The ingestion scenario document of claim C1. -/
def c1Doc : String := "## HIGH PRIORITY\n- [ ] Fix login bug\n  - Add tests"

/-- Claim C1, evaluated at the claimed input: ingestion produces exactly
one active-container task with title "Fix login bug", status pending and
priority high, but its notes field stays null — the indented `  - Add
tests` line is dropped, because the loop tests the already-stripped line
for a leading two-space indent (`stripped.startswith('  - ')` after
`stripped = line.strip()`), a test no stripped line can pass, so the
notes-attachment branch the code and spec describe never runs. -/
theorem c1_ingest_result :
    (ingestDoc c1Doc "tasks.md" "T0" emptyStore).store.active.map
        (fun t => (t.title, t.status, t.priority, t.notes)) =
      [("Fix login bug", "pending", "high", (none : Option String))] ∧
    (ingestDoc c1Doc "tasks.md" "T0" emptyStore).store.backlog = [] ∧
    (ingestDoc c1Doc "tasks.md" "T0" emptyStore).store.completed = [] :=
  ⟨rfl, rfl, rfl⟩

/-! Section: Claim C9 -/

/-- The ingestion document of claim C9: a checked task line whose title
carries the word BLOCKED. -/
def c9Doc : String := "- [x] Ship BLOCKED release"

/-- Claim C9: ingesting a `- [x]` line whose title contains BLOCKED
places a task with status blocked and a non-null completed stamp into the
completed container, while the routing mapping sends status blocked to
the active container — so container residence can disagree with the
status-to-container routing. -/
theorem c9_blocked_task_in_completed :
    (ingestDoc c9Doc "plan.md" "T0" emptyStore).store.completed.map
        (fun t => (t.status, t.completed.isSome)) = [("blocked", true)] ∧
    routeStatus "blocked" = CName.active ∧
    CName.active ≠ CName.completed :=
  ⟨rfl, rfl, by decide⟩

/-! Section: Claim C5 -/

/-- Helper scanning char positions left to right for the first position
where one of the four priority words starts. -/
def leftmostLevelAux : List Char → Option String
  | [] => none
  | c :: rest =>
    if "CRITICAL".data.isPrefixOf (c :: rest) then some "critical"
    else if "HIGH".data.isPrefixOf (c :: rest) then some "high"
    else if "MEDIUM".data.isPrefixOf (c :: rest) then some "medium"
    else if "LOW".data.isPrefixOf (c :: rest) then some "low"
    else leftmostLevelAux rest

/-- Modelled from the claim's words, for comparison with the code: the
priority level of the first (leftmost) occurrence of CRITICAL, HIGH,
MEDIUM or LOW in the upper-cased heading text. -/
def leftmostLevel (heading_text : String) : Option String :=
  leftmostLevelAux heading_text.data

/-- The counterexample document for claim C5: a heading carrying LOW
before CRITICAL. -/
def c5Doc : String := "# LOW CRITICAL\n- [ ] alpha"

/-- Counterexample to C5 as stated: on the heading `# LOW CRITICAL` the
leftmost priority word is LOW, yet the ingested task's priority is
"critical" — the code checks CRITICAL first regardless of position, so
the priority is not the one of the leftmost matching word. -/
theorem heading_priority_leftmost_counterexample :
    leftmostLevel (headingText (pyStrip "# LOW CRITICAL")) = some "low" ∧
    (ingestDoc c5Doc "plan.md" "T0" emptyStore).store.active.map Task.priority =
      ["critical"] ∧
    ("critical" : String) ≠ "low" :=
  ⟨rfl, rfl, by decide⟩

/-- Claim C5 amended: a non-blank stripped line beginning with `#` sets
the current priority to `headingPriority` of its heading text — the level
of the first matching containment check in the fixed order CRITICAL,
HIGH, MEDIUM, LOW (the highest-precedence word present, not the leftmost;
unchanged when none occurs) — and every other line leaves the current
priority untouched, so it persists until a later qualifying heading. -/
theorem heading_priority_step (source_file now : String) (st : IngestState)
    (line_number : Nat) (line : String) :
    (pyStrip line ≠ "" → strStartsWith (pyStrip line) "#" = true →
      (ingestStep source_file now st line_number line).current_priority =
        headingPriority (headingText (pyStrip line)) st.current_priority) ∧
    (strStartsWith (pyStrip line) "#" = false →
      (ingestStep source_file now st line_number line).current_priority =
        st.current_priority) := by
  constructor
  · intro h0 h1
    simp [ingestStep, h0, h1]
  · intro h1
    by_cases h0 : pyStrip line = ""
    · simp [ingestStep, h0]
    · unfold ingestStep
      simp only [h0, if_false, h1, Bool.false_eq_true]
      split
      · split
        · rfl
        · split
          · split <;> rfl
          · split <;> rfl
      · split
        · split
          · rfl
          · split <;> rfl
        · rfl

/-- Witness for C5 amended: the two implications discharged on a heading
line and on a task line. -/
theorem heading_priority_step_witness :
    pyStrip "## HIGH PRIORITY" ≠ "" ∧
    (ingestStep "f.md" "T0" (initIngestState emptyStore) 1
        "## HIGH PRIORITY").current_priority =
      headingPriority (headingText (pyStrip "## HIGH PRIORITY")) "medium" ∧
    (ingestStep "f.md" "T0" (initIngestState emptyStore) 2
        "- [ ] alpha").current_priority = "medium" :=
  ⟨by decide,
   (heading_priority_step "f.md" "T0" (initIngestState emptyStore) 1
       "## HIGH PRIORITY").1 (by decide) rfl,
   (heading_priority_step "f.md" "T0" (initIngestState emptyStore) 2
       "- [ ] alpha").2 rfl⟩

/-! Section: Claim C3 -/

/-- A task that already resides in the completed container (reachable,
e.g., by ingesting a checked BLOCKED line, claim C9). -/
def c3Prior : Task := { mkT 1 "ship" "blocked" "high" with completed := some "T0" }

/-- A store whose only task with id 1 resides in the completed container. -/
def c3Store : Store := { active := [], backlog := [], completed := [c3Prior] }

/-- The record produced by completing task 1 of `c3Store`. -/
def c3After : Task := { c3Prior with status := "completed", updated := "T1" }

/-- Counterexample to C3 as stated: task 1 is present in exactly one
container (the completed one); `update(1, {status: completed})` leaves it
in the completed container — so the task is still present in the
container it previously resided in, contrary to the claim's second
conjunct. -/
theorem update_completed_counterexample :
    (allTasks c3Store).countP (fun t => t.id == 1) = 1 ∧
    update_task c3Store 1 { status := some "completed" } "T1" =
      Except.ok (c3After, CName.completed, CName.completed,
        { active := [], backlog := [], completed := [c3After] }) ∧
    (tasksOf { active := [], backlog := [], completed := [c3After] }
        CName.completed).countP (fun t => t.id == 1) = 1 :=
  ⟨rfl, rfl, rfl⟩

/-- Unfolding of `find_task`: a hit in container `c` is a `find?` hit in
that container's task list. -/
theorem find_task_spec (s : Store) (i : Nat) (t : Task) (c : CName)
    (h : find_task s i = some (t, c)) :
    (tasksOf s c).find? (fun x => x.id == i) = some t := by
  unfold find_task at h
  cases ha : s.active.find? (fun x => x.id == i) with
  | some t0 =>
    simp only [ha, Option.some.injEq, Prod.mk.injEq] at h
    obtain ⟨rfl, rfl⟩ := h
    exact ha
  | none =>
    simp only [ha] at h
    cases hb : s.backlog.find? (fun x => x.id == i) with
    | some t0 =>
      simp only [hb, Option.some.injEq, Prod.mk.injEq] at h
      obtain ⟨rfl, rfl⟩ := h
      exact hb
    | none =>
      simp only [hb] at h
      cases hc : s.completed.find? (fun x => x.id == i) with
      | some t0 =>
        simp only [hc, Option.some.injEq, Prod.mk.injEq] at h
        obtain ⟨rfl, rfl⟩ := h
        exact hc
      | none =>
        rw [hc] at h
        exact Option.noConfusion h

/-- The replacement record is a member of `updateInList` whenever the id
is found in the list. -/
theorem mem_updateInList (l : List Task) (i : Nat) (nt t0 : Task)
    (h : l.find? (fun x => x.id == i) = some t0) :
    nt ∈ updateInList l i nt := by
  induction l with
  | nil => simp [List.find?] at h
  | cons a l ih =>
    by_cases ha : (a.id == i) = true
    · simp [updateInList, ha]
    · have h' : l.find? (fun x => x.id == i) = some t0 := by
        rwa [List.find?_cons_of_neg _ (by simpa using ha)] at h
      simp only [updateInList, ha, if_false]
      exact List.mem_cons_of_mem _ (ih h')

/-- Reading a container after replacing one container's list. -/
theorem tasksOf_setTasks (s : Store) (c c' : CName) (ts : List Task) :
    tasksOf (setTasks s c ts) c' = if c' = c then ts else tasksOf s c' := by
  cases c <;> cases c' <;> simp [tasksOf, setTasks]

/-- Claim C3 amended: for a task id present in exactly one container,
`update(id, {status: "completed"})` targets the completed container, the
returned record carries a non-null completed timestamp and resides in the
completed container afterwards, and — when the prior container is not the
completed container itself — no task with that id remains in the prior
container. -/
theorem update_to_completed_moves (s : Store) (task_id : Nat) (now : String)
    (t : Task) (src tgt : CName) (s2 : Store)
    (_hone : (allTasks s).countP (fun x => x.id == task_id) = 1)
    (h : update_task s task_id { status := some "completed" } now =
      Except.ok (t, src, tgt, s2)) :
    tgt = CName.completed ∧
    t.completed.isSome = true ∧
    t ∈ s2.completed ∧
    (src ≠ CName.completed → ∀ x ∈ tasksOf s2 src, x.id ≠ task_id) := by
  cases hf : find_task s task_id with
  | none =>
    simp only [update_task, hf] at h
    exact Except.noConfusion h
  | some p =>
    obtain ⟨t0, src0⟩ := p
    have hfind := find_task_spec s task_id t0 src0 hf
    simp only [update_task, hf] at h
    have hstat :
        (applyUpdates t0 { status := some "completed" } now).status = "completed" := rfl
    have hcomp :
        (applyUpdates t0 { status := some "completed" } now).completed = t0.completed := rfl
    rw [hstat] at h
    have hroute : routeStatus "completed" = CName.completed := rfl
    rw [hroute] at h
    by_cases hsrc : src0 = CName.completed
    · rw [if_pos hsrc] at h
      simp only [Except.ok.injEq, Prod.mk.injEq] at h
      obtain ⟨rfl, rfl, rfl, rfl⟩ := h
      refine ⟨rfl, ?_, ?_, ?_⟩
      · rcases hc : t0.completed with _ | c <;> simp [hcomp, hc]
      · subst hsrc
        simpa [setTasks] using
          mem_updateInList (tasksOf s CName.completed) task_id _ t0 hfind
      · intro hne
        exact absurd hsrc hne
    · rw [if_neg hsrc] at h
      simp only [Except.ok.injEq, Prod.mk.injEq] at h
      obtain ⟨rfl, rfl, rfl, rfl⟩ := h
      refine ⟨rfl, ?_, ?_, ?_⟩
      · rcases hc : t0.completed with _ | c <;> simp [hcomp, hc]
      · simp [moveTask, tasksOf_setTasks, setTasks, hsrc]
      · intro hne x hx
        simp only [moveTask] at hx
        rw [tasksOf_setTasks, if_neg hsrc, tasksOf_setTasks, if_pos rfl] at hx
        have := List.of_mem_filter hx
        simpa using this

/-- A store holding a single pending task with id 1 in the active
container. -/
def pendingStore : Store :=
  { active := [mkT 1 "t" "pending" "medium"], backlog := [], completed := [] }

/-- The record obtained by completing task 1 of `pendingStore` at "T1". -/
def c3MovedTask : Task :=
  { mkT 1 "t" "pending" "medium" with
    status := "completed", updated := "T1", completed := some "T1" }

/-- The store after completing task 1 of `pendingStore`. -/
def c3MovedStore : Store :=
  { active := [], backlog := [], completed := [c3MovedTask] }

/-- Witness for C3 amended: completing a pending task that resides in the
active container moves it to the completed container. -/
theorem update_to_completed_moves_witness :
    (allTasks pendingStore).countP (fun x => x.id == 1) = 1 ∧
    update_task pendingStore 1 { status := some "completed" } "T1" =
      Except.ok (c3MovedTask, CName.active, CName.completed, c3MovedStore) ∧
    (CName.completed = CName.completed ∧
      c3MovedTask.completed.isSome = true ∧
      c3MovedTask ∈ c3MovedStore.completed ∧
      (CName.active ≠ CName.completed →
        ∀ x ∈ tasksOf c3MovedStore CName.active, x.id ≠ 1)) :=
  ⟨rfl, rfl, update_to_completed_moves pendingStore 1 "T1" c3MovedTask CName.active
    CName.completed c3MovedStore rfl rfl⟩

/-! Section: Claim C2 -/

/-- Claim C2: in `update_task` the target container is determined solely
by the resulting status value, via the total mapping completed ↦
completed container, backlog ↦ backlog container, and anything else
(pending, in_progress, blocked, or any value outside the enum) ↦ active
container. -/
theorem update_task_routing (s : Store) (task_id : Nat) (u : Updates)
    (v now : String) (t : Task) (src tgt : CName) (s2 : Store)
    (hv : u.status = some v)
    (h : update_task s task_id u now = Except.ok (t, src, tgt, s2)) :
    tgt = if v = "completed" then CName.completed
          else if v = "backlog" then CName.backlog
          else CName.active := by
  cases hf : find_task s task_id with
  | none =>
    simp only [update_task, hf] at h
    exact Except.noConfusion h
  | some p =>
    obtain ⟨t0, src0⟩ := p
    simp only [update_task, hf] at h
    have hstat : (applyUpdates t0 u now).status = v := by
      simp [applyUpdates, hv]
    rw [hstat] at h
    split at h <;>
    · simp only [Except.ok.injEq, Prod.mk.injEq] at h
      exact h.2.2.1.symm

/-- The record produced by setting the out-of-enum status "weird" on task
1 of `pendingStore`. -/
def c2WTask : Task :=
  { mkT 1 "t" "pending" "medium" with status := "weird", updated := "T1" }

/-- Witness for C2: an update whose resulting status is the out-of-enum
value "weird" is routed to the active container. -/
theorem update_task_routing_witness :
    ({ status := some "weird" } : Updates).status = some "weird" ∧
    update_task pendingStore 1 { status := some "weird" } "T1" =
      Except.ok (c2WTask, CName.active, CName.active,
        { active := [c2WTask], backlog := [], completed := [] }) ∧
    CName.active = (if ("weird" : String) = "completed" then CName.completed
      else if ("weird" : String) = "backlog" then CName.backlog
      else CName.active) :=
  ⟨rfl, rfl,
   update_task_routing pendingStore 1 { status := some "weird" } "weird" "T1"
     c2WTask CName.active CName.active
     { active := [c2WTask], backlog := [], completed := [] } rfl rfl⟩

/-! Section: Claim C7 -/

/-- Claim C7: a task line whose trimmed title carries the 🚫 marker or
the word BLOCKED in any letter casing is emitted with status blocked —
for both checkbox forms, since `lineTaskInput` covers `- [ ]` and
`- [x]` lines and the blocked override is applied after the checkbox
resolution. -/
theorem blocked_title_forces_blocked
    (current_priority source_file now stripped : String) (line_number : Nat)
    (s : Store) (tgt : CName) (t : Task) (s2 : Store)
    (hmark : hasBlockedMarker (taskTitle stripped) = true)
    (hadd : add_task s (lineTaskInput current_priority source_file line_number now stripped)
        tgt now = Except.ok (t, s2)) :
    t.status = "blocked" := by
  simp only [lineTaskInput, hmark, if_true, add_task, Except.ok.injEq,
    Prod.mk.injEq] at hadd
  obtain ⟨rfl, rfl⟩ := hadd
  rfl

/-- The task emitted for the checked blocked line of the C7 witness. -/
def c7DoneTask : Task :=
  { id := 1, title := "Ship BLOCKED release", status := "blocked",
    priority := "medium", created := "T0", updated := "T0",
    completed := some "T0", source_file := some "f.md", source_line := some 1,
    notes := none, tags := [], blocked_by := none, depends_on := [] }

/-- The store holding `c7DoneTask` in the completed container. -/
def c7DoneStore : Store :=
  { active := [], backlog := [], completed := [c7DoneTask] }

/-- The task emitted for the open 🚫-marked line of the C7 witness. -/
def c7OpenTask : Task :=
  { id := 1, title := "fix 🚫 login", status := "blocked",
    priority := "medium", created := "T0", updated := "T0",
    completed := none, source_file := some "f.md", source_line := some 1,
    notes := none, tags := [], blocked_by := none, depends_on := [] }

/-- The store holding `c7OpenTask` in the active container. -/
def c7OpenStore : Store :=
  { active := [c7OpenTask], backlog := [], completed := [] }

/-- Witness for C7: one `- [x]` line with BLOCKED in the title and one
`- [ ]` line with the 🚫 marker, both emitted with status blocked. -/
theorem blocked_title_forces_blocked_witness :
    hasBlockedMarker (taskTitle "- [x] Ship BLOCKED release") = true ∧
    add_task emptyStore
        (lineTaskInput "medium" "f.md" 1 "T0" "- [x] Ship BLOCKED release")
        CName.completed "T0" = Except.ok (c7DoneTask, c7DoneStore) ∧
    c7DoneTask.status = "blocked" ∧
    hasBlockedMarker (taskTitle "- [ ] fix 🚫 login") = true ∧
    add_task emptyStore
        (lineTaskInput "medium" "f.md" 1 "T0" "- [ ] fix 🚫 login")
        CName.active "T0" = Except.ok (c7OpenTask, c7OpenStore) ∧
    c7OpenTask.status = "blocked" :=
  ⟨rfl, rfl,
   blocked_title_forces_blocked "medium" "f.md" "T0" "- [x] Ship BLOCKED release"
     1 emptyStore CName.completed c7DoneTask c7DoneStore rfl rfl,
   rfl, rfl,
   blocked_title_forces_blocked "medium" "f.md" "T0" "- [ ] fix 🚫 login"
     1 emptyStore CName.active c7OpenTask c7OpenStore rfl rfl⟩

/-! Section: Claim C6 -/

/-- The record persisted by updating task 1 of `pendingStore` to the
out-of-enum status "bogus". -/
def c6BadStatusTask : Task :=
  { mkT 1 "t" "pending" "medium" with status := "bogus", updated := "T1" }

/-- The record persisted by updating task 1 of `pendingStore` to the
out-of-enum priority "galactic". -/
def c6BadPrioTask : Task :=
  { mkT 1 "t" "pending" "medium" with priority := "galactic", updated := "T1" }

/-- Counterexample to C6 as stated: the repository-layer `update_task`
given a status value outside the enum ("bogus") or a priority value
outside the enum ("galactic") does not fail — it returns successfully and
persists the out-of-enum value. -/
theorem update_validation_counterexample :
    update_task pendingStore 1 { status := some "bogus" } "T1" =
      Except.ok (c6BadStatusTask, CName.active, CName.active,
        { active := [c6BadStatusTask], backlog := [], completed := [] }) ∧
    c6BadStatusTask.status = "bogus" ∧
    update_task pendingStore 1 { priority := some "galactic" } "T1" =
      Except.ok (c6BadPrioTask, CName.active, CName.active,
        { active := [c6BadPrioTask], backlog := [], completed := [] }) ∧
    c6BadPrioTask.priority = "galactic" :=
  ⟨rfl, rfl, rfl, rfl⟩

/-- Claim C6 amended: the repository-layer `update_task` performs no enum
validation at all. For any found task id, an update with any status value
not equal to "completed" or "backlog" (in particular any value outside the
status enum) succeeds, persists that status on the record and routes the
task to the active container, and an update with any priority string
(in particular any value outside the priority enum) succeeds and persists
it; the enum validation the spec describes happens only in the CLI layer
(`cmd_update`), before the repository is reached. -/
theorem update_task_no_enum_validation (s : Store) (task_id : Nat) (v now : String)
    (t0 : Task) (c0 : CName)
    (hfind : find_task s task_id = some (t0, c0))
    (hv1 : v ≠ "completed") (hv2 : v ≠ "backlog") :
    (Except.toOption (update_task s task_id { status := some v } now)).map
        (fun r => (r.1.status, r.2.2.1)) = some (v, CName.active) ∧
    (Except.toOption (update_task s task_id { priority := some v } now)).map
        (fun r => r.1.priority) = some v := by
  constructor
  · have hroute : routeStatus v = CName.active := by
      simp [routeStatus, hv1, hv2]
    simp only [update_task, hfind,
      show (applyUpdates t0 { status := some v } now).status = v from rfl, hroute]
    by_cases hc : c0 = CName.active
    · rw [if_pos hc]
      simp only [Except.toOption, Option.map_some]
      refine congrArg some (Prod.ext ?_ rfl)
      split <;> rfl
    · rw [if_neg hc]
      simp only [Except.toOption, Option.map_some]
      refine congrArg some (Prod.ext ?_ rfl)
      split <;> rfl
  · simp only [update_task, hfind,
      show (applyUpdates t0 { priority := some v } now).status = t0.status from rfl]
    by_cases hc : c0 = routeStatus t0.status
    · rw [if_pos hc]
      simp only [Except.toOption, Option.map_some]
      refine congrArg some ?_
      split <;> rfl
    · rw [if_neg hc]
      simp only [Except.toOption, Option.map_some]
      refine congrArg some ?_
      split <;> rfl

/-- Witness for C6 amended: updating task 1 of `pendingStore` with the
out-of-enum value "galactic" as status and as priority. -/
theorem update_task_no_enum_validation_witness :
    find_task pendingStore 1 = some (mkT 1 "t" "pending" "medium", CName.active) ∧
    (Except.toOption (update_task pendingStore 1 { status := some "galactic" } "T1")).map
        (fun r => (r.1.status, r.2.2.1)) = some ("galactic", CName.active) ∧
    (Except.toOption (update_task pendingStore 1 { priority := some "galactic" } "T1")).map
        (fun r => r.1.priority) = some "galactic" :=
  ⟨rfl,
   (update_task_no_enum_validation pendingStore 1 "galactic" "T1"
     (mkT 1 "t" "pending" "medium") CName.active rfl
     (by decide) (by decide)).1,
   (update_task_no_enum_validation pendingStore 1 "galactic" "T1"
     (mkT 1 "t" "pending" "medium") CName.active rfl
     (by decide) (by decide)).2⟩

/-! Section: Claim C8 -/

/-- A pre-existing task with id 1 carrying a non-default notes value. -/
def c8Old : Task := { mkT 1 "old title" "pending" "medium" with notes := some "old" }

/-- A store already holding `c8Old` in the active container. -/
def c8Store : Store := { active := [c8Old], backlog := [], completed := [] }

/-- An input record that reuses the occupied id 1 and supplies no
optional fields. -/
def c8Input : TaskInput :=
  { id := some 1, title := some "new", status := some "pending",
    priority := some "low" }

/-- The normalized record appended for `c8Input`. -/
def c8New : Task :=
  { id := 1, title := "new", status := "pending", priority := "low",
    created := "T1", updated := "T1", completed := none, source_file := none,
    source_line := none, notes := none, tags := [], blocked_by := none,
    depends_on := [] }

/-- Counterexample to C8 as stated: `add` never checks id uniqueness, so
adding a record that reuses an occupied id succeeds, and `find` — which
returns the first match — then returns the pre-existing record, whose
notes field is "old" rather than the null default for the unsupplied
notes of the added record. -/
theorem add_find_round_trip_counterexample :
    c8Input.notes = none ∧
    add_task c8Store c8Input CName.active "T1" =
      Except.ok (c8New, { active := [c8Old, c8New], backlog := [], completed := [] }) ∧
    find_task { active := [c8Old, c8New], backlog := [], completed := [] } 1 =
      some (c8Old, CName.active) ∧
    c8Old.notes = some "old" :=
  ⟨rfl, rfl, rfl, rfl⟩

/-- Appending a record whose id is absent from the list makes it the
`find?` result for its id. -/
theorem find?_append_fresh (l : List Task) (nt : Task) (j : Nat)
    (hj : nt.id = j) (h : ∀ x ∈ l, x.id ≠ j) :
    (l ++ [nt]).find? (fun x => x.id == j) = some nt := by
  rw [List.find?_append, List.find?_eq_none.mpr (fun x hx => by simpa using h x hx)]
  simp [List.find?, hj]

/-- Appending a record with a globally fresh id to any container makes it
the `find_task` result for its id. -/
theorem find_task_after_append (s : Store) (tgt : CName) (nt : Task)
    (h : ∀ x ∈ allTasks s, x.id ≠ nt.id) :
    find_task (setTasks s tgt (tasksOf s tgt ++ [nt])) nt.id = some (nt, tgt) := by
  have hA : ∀ x ∈ s.active, x.id ≠ nt.id := fun x hx => h x (by simp [allTasks, hx])
  have hB : ∀ x ∈ s.backlog, x.id ≠ nt.id := fun x hx => h x (by simp [allTasks, hx])
  have hC : ∀ x ∈ s.completed, x.id ≠ nt.id := fun x hx => h x (by simp [allTasks, hx])
  have hnA : s.active.find? (fun x => x.id == nt.id) = none :=
    List.find?_eq_none.mpr (fun x hx => by simpa using hA x hx)
  have hnB : s.backlog.find? (fun x => x.id == nt.id) = none :=
    List.find?_eq_none.mpr (fun x hx => by simpa using hB x hx)
  cases tgt with
  | active =>
    have happ := find?_append_fresh s.active nt nt.id rfl hA
    simp [find_task, setTasks, tasksOf, happ]
  | backlog =>
    have happ := find?_append_fresh s.backlog nt nt.id rfl hB
    simp [find_task, setTasks, tasksOf, hnA, happ]
  | completed =>
    have happ := find?_append_fresh s.completed nt nt.id rfl hC
    simp [find_task, setTasks, tasksOf, hnA, hnB, happ]

/-- Claim C8 amended: for an input record whose resulting id (the
supplied one, or the allocated `get_next_id` when absent) is not already
present in any container, `add` followed by `find` of that id returns
exactly the normalized record that was appended, in the target container,
with every unsupplied optional field holding its default (null scalars,
empty tags and depends_on lists). -/
theorem add_find_round_trip (s : Store) (tin : TaskInput) (tgt : CName)
    (now : String) (t : Task) (s2 : Store)
    (hfresh : ∀ x ∈ allTasks s, x.id ≠ tin.id.getD (get_next_id s))
    (h : add_task s tin tgt now = Except.ok (t, s2)) :
    find_task s2 t.id = some (t, tgt) ∧
    (tin.completed = none → t.completed = none) ∧
    (tin.source_file = none → t.source_file = none) ∧
    (tin.source_line = none → t.source_line = none) ∧
    (tin.notes = none → t.notes = none) ∧
    (tin.blocked_by = none → t.blocked_by = none) ∧
    (tin.tags = none → t.tags = []) ∧
    (tin.depends_on = none → t.depends_on = []) := by
  simp only [add_task] at h
  split at h
  · simp only [Except.ok.injEq, Prod.mk.injEq] at h
    obtain ⟨rfl, rfl⟩ := h
    refine ⟨find_task_after_append s tgt _ (fun x hx => hfresh x hx),
      fun hno => by simp [hno], fun hno => by simp [hno], fun hno => by simp [hno],
      fun hno => by simp [hno], fun hno => by simp [hno], fun hno => by simp [hno],
      fun hno => by simp [hno]⟩
  · exact Except.noConfusion h

/-- A fresh input record with no id and no optional fields, for the C8
witness. -/
def c8WInput : TaskInput :=
  { title := some "w", status := some "pending", priority := some "low" }

/-- The normalized record appended for `c8WInput` over `storeW`: id 8 is
allocated by `get_next_id`. -/
def c8WTask : Task :=
  { id := 8, title := "w", status := "pending", priority := "low",
    created := "T2", updated := "T2", completed := none, source_file := none,
    source_line := none, notes := none, tags := [], blocked_by := none,
    depends_on := [] }

/-- The store after adding `c8WInput` to the backlog of `storeW`. -/
def c8WStore : Store :=
  { storeW with backlog := [mkT 7 "b" "backlog" "medium", c8WTask] }

/-- Witness for C8 amended: adding a fresh record to the backlog of a
populated store and finding it again, with the unsupplied optional fields
at their defaults. -/
theorem add_find_round_trip_witness :
    add_task storeW c8WInput CName.backlog "T2" = Except.ok (c8WTask, c8WStore) ∧
    find_task c8WStore c8WTask.id = some (c8WTask, CName.backlog) ∧
    c8WTask.notes = none ∧ c8WTask.tags = [] :=
  ⟨rfl,
   (add_find_round_trip storeW c8WInput CName.backlog "T2" c8WTask c8WStore
     (by decide) rfl).1,
   (add_find_round_trip storeW c8WInput CName.backlog "T2" c8WTask c8WStore
     (by decide) rfl).2.2.2.2.1 rfl,
   (add_find_round_trip storeW c8WInput CName.backlog "T2" c8WTask c8WStore
     (by decide) rfl).2.2.2.2.2.2.1 rfl⟩

end TaskMan
